import Mathlib

/-!
Shallow embedding of `src/wordpress_manager.py` (class `WordPressManager`)
and verification of its specification.

HTTP traffic is made explicit: the outcome of a network round-trip is an
input (`HttpOutcome`), and each client method is a pure function from the
client state and its arguments to a description of the single request it
issues, together with the client state after the call.  Python truthiness
of the optional arguments is modelled by the `pyTruthy*` helpers, and the
filesystem touched by `backup_site` is threaded as an explicit `FS` value.
-/

namespace WordPressManager

/-- JSON-like values appearing in request bodies. -/
inductive JValue where
  | str : String → JValue
  | num : Int → JValue
  | arrNum : List Int → JValue
  | arrStr : List String → JValue
  | arrObj : List (List (String × String)) → JValue
deriving DecidableEq, Repr

/-- Python truthiness of an `Optional[str]`: `None` and `""` are falsy. -/
def pyTruthyStr : Option String → Bool
  | none => false
  | some s => !(s == "")

/-- Python truthiness of an `Optional[int]`: `None` and `0` are falsy. -/
def pyTruthyInt : Option Int → Bool
  | none => false
  | some n => !(n == 0)

/-- Python truthiness of an `Optional[List[int]]`: `None` and `[]` are falsy. -/
def pyTruthyList : Option (List Int) → Bool
  | none => false
  | some l => !(l == [])

/-- Rendering of an `Optional[str]` inside a Python f-string:
`None` prints as the literal text `None`. -/
def pyStrOfOptStr : Option String → String
  | none => "None"
  | some s => s

/-- First-match lookup in a list of key/value pairs, the model of indexing a
Python dict decoded from JSON (`d.get(k)` / `d[k]`). -/
def jget (kvs : List (String × String)) (k : String) : Option String :=
  (kvs.find? (fun kv => kv.1 == k)).map (fun kv => kv.2)

/-- Drop the longest run of characters satisfying `p` from the front. -/
def stripLeft (p : Char → Bool) (s : String) : String :=
  String.mk (s.toList.dropWhile p)

/-- Drop the longest run of characters satisfying `p` from the back. -/
def stripRight (p : Char → Bool) (s : String) : String :=
  String.mk ((s.toList.reverse.dropWhile p).reverse)

/-- Python `s.split(sep)` for a single-character separator: worker. -/
def splitCharAux (sep : Char) : List Char → List Char → List String
  | [], acc => [String.mk acc.reverse]
  | c :: rest, acc =>
    if c == sep then String.mk acc.reverse :: splitCharAux sep rest []
    else splitCharAux sep rest (c :: acc)

/-- Python `s.split(sep)` for a single-character separator; in particular
`"".split(sep) == [""]` and a trailing separator yields a final `""`. -/
def splitChar (sep : Char) (s : String) : List String :=
  splitCharAux sep s.toList []

/-- Python `sep.join(parts)`. -/
def joinWith (sep : String) : List String → String
  | [] => ""
  | [x] => x
  | x :: y :: xs => x ++ sep ++ joinWith sep (y :: xs)

/-- Python `s.startswith("#")`. -/
def startsWithHash (s : String) : Bool :=
  match s.toList with
  | [] => false
  | c :: _ => c == '#'

/-- Python `s.rstrip("/")`: drop trailing slash characters. -/
def pyRstripSlash (s : String) : String :=
  stripRight (fun c => c == '/') s

/-- The four configuration values read from the environment (`.env` file);
`none` models an unset variable (`os.getenv` returning `None`). -/
structure Env where
  wordpressUrl : Option String
  wordpressUsername : Option String
  wordpressPassword : Option String
  geminiApiKey : Option String
deriving DecidableEq, Repr

/-- Outcome of one HTTP round-trip, as seen by the caller of `requests`:
either a transport-level failure, or a response with a status code and a
decoded JSON object body (`none` body = the body failed to decode as JSON,
which `requests` also surfaces as a `RequestException`). -/
inductive HttpOutcome where
  | netError
  | resp : Nat → Option (List (String × String)) → HttpOutcome
deriving DecidableEq, Repr

/-- `requests.Response.raise_for_status` raises `HTTPError` exactly when the
status code is in the 4xx or 5xx range. -/
def raiseForStatusFails (status : Nat) : Bool :=
  decide (400 ≤ status) && decide (status < 600)

/-- The session state produced by `WordPressManager.authenticate`: the stored
token and the derived header set. -/
structure Session where
  token : Option String
  headers : List (String × String)
deriving DecidableEq, Repr

/-- `WordPressManager.authenticate`.  The POST to the JWT endpoint is made
explicit through its outcome.  On a `RequestException` (transport failure,
4xx/5xx from `raise_for_status`, or JSON decode failure) it re-raises; on any
other response it stores `body.get("token")` — possibly `None` — and builds
the header set with an f-string, so a missing token yields the literal
Authorization value `Bearer None`. -/
def authenticate (outcome : HttpOutcome) : Except String Session :=
  match outcome with
  | .netError => .error "Autentikasi gagal"
  | .resp status body =>
    if raiseForStatusFails status then .error "Autentikasi gagal"
    else
      match body with
      | none => .error "Autentikasi gagal"
      | some kvs =>
        let token := jget kvs "token"
        .ok { token := token
              headers := [("Authorization", "Bearer " ++ pyStrOfOptStr token),
                          ("Content-Type", "application/json")] }

/-- The whole client state after `__init__`. -/
structure Client where
  site_url : String
  api_url : String
  jwt_url : String
  username : Option String
  password : Option String
  gemini_api_key : Option String
  token : Option String
  headers : List (String × String)
deriving DecidableEq, Repr

/-- The ways `WordPressManager.__init__` can fail. -/
inductive InitError where
  | attributeError
  | valueError : String → InitError
  | authenticationError : String → InitError
deriving DecidableEq, Repr

/-- `WordPressManager.__init__` followed by `_validate_config` and
`authenticate`.  `os.getenv("WORDPRESS_URL")` returning `None` makes
`None.rstrip("/")` raise an `AttributeError` before any validation runs.
The second component counts the network requests issued during
construction (the single authentication POST, when it is attempted). -/
def init (env : Env) (authOutcome : HttpOutcome) : Except InitError Client × Nat :=
  match env.wordpressUrl with
  | none => (.error .attributeError, 0)
  | some u =>
    let site_url := pyRstripSlash u
    let api_url := site_url ++ "/wp-json/wp/v2"
    let jwt_url := site_url ++ "/wp-json/jwt-auth/v1/token"
    if !(pyTruthyStr (some site_url)) then
      (.error (.valueError "WORDPRESS_URL"), 0)
    else if !(pyTruthyStr env.wordpressUsername) then
      (.error (.valueError "WORDPRESS_USERNAME"), 0)
    else if !(pyTruthyStr env.wordpressPassword) then
      (.error (.valueError "WORDPRESS_PASSWORD"), 0)
    else if !(pyTruthyStr env.geminiApiKey) then
      (.error (.valueError "GEMINI_API_KEY"), 0)
    else
      match authenticate authOutcome with
      | .error e => (.error (.authenticationError e), 1)
      | .ok s =>
        (.ok { site_url := site_url
               api_url := api_url
               jwt_url := jwt_url
               username := env.wordpressUsername
               password := env.wordpressPassword
               gemini_api_key := env.geminiApiKey
               token := s.token
               headers := s.headers }, 1)

/-- Description of one JSON-carrying HTTP request issued through `requests`:
method, URL, the `headers=` keyword argument, the `json=` keyword argument
(`none` when the call passes no `json=`), and the timeout in seconds. -/
structure Request where
  method : String
  url : String
  headers : List (String × String)
  jsonBody : Option (List (String × JValue))
  timeout : Nat
deriving DecidableEq, Repr

/-- `WordPressManager.list_themes`: one GET, client state unchanged. -/
def list_themes (c : Client) : Request × Client :=
  ({ method := "GET"
     url := c.site_url ++ "/wp-json/wp/v2/themes"
     headers := c.headers
     jsonBody := none
     timeout := 10 }, c)

/-- `WordPressManager.activate_theme`. -/
def activate_theme (c : Client) (theme_slug : String) : Request × Client :=
  ({ method := "POST"
     url := c.site_url ++ "/wp-json/wp/v2/settings"
     headers := c.headers
     jsonBody := some [("theme", JValue.str theme_slug)]
     timeout := 10 }, c)

/-- `WordPressManager.update_menu`.  Each menu item dict is modelled as a
key/value list. -/
def update_menu (c : Client) (menu_id : Int) (items : List (List (String × String))) :
    Request × Client :=
  ({ method := "POST"
     url := c.api_url ++ "/menus/" ++ toString menu_id
     headers := c.headers
     jsonBody := some [("items", JValue.arrObj items)]
     timeout := 10 }, c)

/-- The request body built by `WordPressManager.create_post`: the four
mandatory fields in dict insertion order, then `categories` and
`featured_media` appended only when the corresponding argument is truthy. -/
def create_post_data (title content : String) (categories : Option (List Int))
    (featured_image_id : Option Int) (status post_type : String) :
    List (String × JValue) :=
  [("title", JValue.str title), ("content", JValue.str content),
   ("status", JValue.str status), ("type", JValue.str post_type)]
  ++ (if pyTruthyList categories then
        [("categories", JValue.arrNum (categories.getD []))] else [])
  ++ (if pyTruthyInt featured_image_id then
        [("featured_media", JValue.num (featured_image_id.getD 0))] else [])

/-- `WordPressManager.create_post`.  Defaults in the source are
`categories=None`, `featured_image_id=None`, `status="publish"`,
`post_type="post"`; callers pass them explicitly here. -/
def create_post (c : Client) (title content : String) (categories : Option (List Int))
    (featured_image_id : Option Int) (status post_type : String) : Request × Client :=
  ({ method := "POST"
     url := c.api_url ++ "/" ++ post_type ++ "s"
     headers := c.headers
     jsonBody := some (create_post_data title content categories featured_image_id status post_type)
     timeout := 10 }, c)

/-- The request body built by `WordPressManager.update_post`: starts empty and
each field is added only when the corresponding argument is truthy. -/
def update_post_data (title content : Option String) (categories : Option (List Int))
    (featured_image_id : Option Int) : List (String × JValue) :=
  (if pyTruthyStr title then [("title", JValue.str (title.getD ""))] else [])
  ++ (if pyTruthyStr content then [("content", JValue.str (content.getD ""))] else [])
  ++ (if pyTruthyList categories then
        [("categories", JValue.arrNum (categories.getD []))] else [])
  ++ (if pyTruthyInt featured_image_id then
        [("featured_media", JValue.num (featured_image_id.getD 0))] else [])

/-- `WordPressManager.update_post`. -/
def update_post (c : Client) (post_id : Int) (post_type : String)
    (title content : Option String) (categories : Option (List Int))
    (featured_image_id : Option Int) : Request × Client :=
  ({ method := "POST"
     url := c.api_url ++ "/" ++ post_type ++ "s/" ++ toString post_id
     headers := c.headers
     jsonBody := some (update_post_data title content categories featured_image_id)
     timeout := 10 }, c)

/-- `WordPressManager.delete_post`. -/
def delete_post (c : Client) (post_id : Int) (post_type : String) : Request × Client :=
  ({ method := "DELETE"
     url := c.api_url ++ "/" ++ post_type ++ "s/" ++ toString post_id
     headers := c.headers
     jsonBody := none
     timeout := 10 }, c)

/-- `WordPressManager.create_user`. -/
def create_user (c : Client) (username email password role : String) : Request × Client :=
  ({ method := "POST"
     url := c.api_url ++ "/users"
     headers := c.headers
     jsonBody := some [("username", JValue.str username), ("email", JValue.str email),
                       ("password", JValue.str password), ("roles", JValue.arrStr [role])]
     timeout := 10 }, c)

/-- The request body built by `WordPressManager.update_user`. -/
def update_user_data (email role : Option String) : List (String × JValue) :=
  (if pyTruthyStr email then [("email", JValue.str (email.getD ""))] else [])
  ++ (if pyTruthyStr role then [("roles", JValue.arrStr [role.getD ""])] else [])

/-- `WordPressManager.update_user`. -/
def update_user (c : Client) (user_id : Int) (email role : Option String) :
    Request × Client :=
  ({ method := "POST"
     url := c.api_url ++ "/users/" ++ toString user_id
     headers := c.headers
     jsonBody := some (update_user_data email role)
     timeout := 10 }, c)

/-- The URL built by `WordPressManager.delete_user`: the query parameter is
appended only when `reassign` is truthy. -/
def delete_user_url (api_url : String) (user_id : Int) (reassign : Option Int) : String :=
  let url := api_url ++ "/users/" ++ toString user_id
  if pyTruthyInt reassign then url ++ "?reassign=" ++ toString (reassign.getD 0) else url

/-- `WordPressManager.delete_user`. -/
def delete_user (c : Client) (user_id : Int) (reassign : Option Int) : Request × Client :=
  ({ method := "DELETE"
     url := delete_user_url c.api_url user_id reassign
     headers := c.headers
     jsonBody := none
     timeout := 10 }, c)

/-- A multipart/form-data request, as issued by `upload_media` through the
`files=` and `data=` keyword arguments of `requests.post`. -/
structure MultipartRequest where
  method : String
  url : String
  headers : List (String × String)
  fileField : List (String × String)
  formData : List (String × String)
  timeout : Nat
deriving DecidableEq, Repr

/-- `os.path.basename` for POSIX-style paths. -/
def basename (p : String) : String :=
  (splitChar '/' p).getLastD ""

/-- `WordPressManager.upload_media`.  The method rebuilds its header dict as
`{"Authorization": self.headers["Authorization"]}`; the dict indexing raises
`KeyError` (modelled as `none`) when the session headers lack the key. -/
def upload_media (c : Client) (file_path alt_text description : String) :
    Option (MultipartRequest × Client) :=
  match jget c.headers "Authorization" with
  | none => none
  | some auth =>
    some ({ method := "POST"
            url := c.api_url ++ "/media"
            headers := [("Authorization", auth)]
            fileField := [("file", basename file_path)]
            formData := [("alt_text", alt_text), ("description", description)]
            timeout := 15 }, c)

/-- A wall-clock instant, the model of `datetime.now()`. -/
structure Timestamp where
  year : Nat
  month : Nat
  day : Nat
  hour : Nat
  minute : Nat
  second : Nat
deriving DecidableEq, Repr

/-- Zero-pad to two digits (`strftime` field directives `%m %d %H %M %S`). -/
def pad2 (n : Nat) : String :=
  if n < 10 then "0" ++ toString n else toString n

/-- Zero-pad to four digits (`strftime` field directive `%Y`). -/
def pad4 (n : Nat) : String :=
  if n < 10 then "000" ++ toString n
  else if n < 100 then "00" ++ toString n
  else if n < 1000 then "0" ++ toString n
  else toString n

/-- `datetime.strftime` with the format string used by `backup_site`,
`%Y%m%d_%H%M%S`. -/
def timestampText (t : Timestamp) : String :=
  pad4 t.year ++ pad2 t.month ++ pad2 t.day ++ "_"
    ++ pad2 t.hour ++ pad2 t.minute ++ pad2 t.second

/-- The filesystem as touched by `backup_site`: the set of existing
directories and a path-to-content map for regular files. -/
structure FS where
  dirs : List String
  files : List (String × String)
deriving DecidableEq, Repr

/-- The proper path prefixes of `p` by components, shortest first; these are
the parent directories `Path(p).mkdir(parents=True, exist_ok=True)` creates
before `p` itself. -/
def pathAncestors (p : String) : List String :=
  let comps := splitChar '/' p
  (List.range (comps.length - 1)).map
    (fun i => joinWith "/" (comps.take (i + 1)))

/-- Create one directory if it does not exist yet (`exist_ok=True`). -/
def insertDir (ds : List String) (d : String) : List String :=
  if d ∈ ds then ds else ds ++ [d]

/-- `Path.mkdir(parents=True, exist_ok=True)`: create the missing parents,
shortest first, then the directory itself. -/
def mkdirParents (fs : FS) (p : String) : FS :=
  { fs with dirs := insertDir ((pathAncestors p).foldl insertDir fs.dirs) p }

/-- `open(path, "w")` followed by one `write`: truncate-and-write, i.e.
replace the content if the path exists, create the file otherwise. -/
def writeFile : List (String × String) → String → String → List (String × String)
  | [], k, v => [(k, v)]
  | kv :: rest, k, v => if kv.1 == k then (k, v) :: rest else kv :: writeFile rest k v

/-- The fixed placeholder text written by `backup_site`. -/
def backupPlaceholderText : String :=
  "Simulasi backup WordPress. Gunakan plugin seperti UpdraftPlus untuk backup nyata."

/-- `WordPressManager.backup_site`: ensure the directory exists, write the
placeholder into `backup_<timestamp>.zip` inside it, return the file path. -/
def backup_site (fs : FS) (now : Timestamp) (backup_path : String) : FS × String :=
  let fs1 := mkdirParents fs backup_path
  let backup_file := backup_path ++ "/backup_" ++ timestampText now ++ ".zip"
  ({ fs1 with files := writeFile fs1.files backup_file backupPlaceholderText },
   backup_file)

/-- Python `s.strip(chars)`: drop characters of the set from both ends. -/
def pyStripChars (cs : List Char) (s : String) : String :=
  stripRight (fun c => cs.contains c) (stripLeft (fun c => cs.contains c) s)

/-- Python `s.strip()`: drop whitespace from both ends. -/
def pyStrip (s : String) : String :=
  stripRight Char.isWhitespace (stripLeft Char.isWhitespace s)

/-- Worker for `pyTitle`: the flag records whether the previous character was
a letter (inside a word). -/
def pyTitleAux : List Char → Bool → List Char
  | [], _ => []
  | c :: rest, prevAlpha =>
    if c.isAlpha then
      (if prevAlpha then c.toLower else c.toUpper) :: pyTitleAux rest true
    else
      c :: pyTitleAux rest false

/-- Python `str.title()` over ASCII: uppercase the first letter of every run
of letters, lowercase the rest. -/
def pyTitle (s : String) : String :=
  String.mk (pyTitleAux s.toList false)

/-- `length_map.get(length, 500)` of `generate_article_with_gemini`. -/
def word_count_of (length : String) : Nat :=
  (([("short", 200), ("medium", 500), ("long", 1000)] : List (String × Nat)).lookup
    length).getD 500

/-- The `{"title": ..., "content": ...}` value returned by
`generate_article_with_gemini`. -/
structure Article where
  title : String
  content : String
deriving DecidableEq, Repr

/-- `WordPressManager.generate_article_with_gemini`, with the generative call
factored out: `responseText` stands for `response.text` as returned by the
model.  The result is the prompt sent to the service together with the
article extracted from the response. -/
def generate_article_with_gemini (topic : String) (length : String)
    (responseText : String) : String × Article :=
  let word_count := word_count_of length
  let prompt :=
    "Buat artikel dalam bahasa Indonesia tentang \x27" ++ topic
      ++ "\x27 dengan panjang sekitar " ++ toString word_count
      ++ " kata. Gunakan gaya penulisan yang informatif dan menarik, cocok untuk blog WordPress. "
      ++ "Sertakan judul yang relevan dan konten yang terstruktur dengan paragraf yang jelas."
  let lines := splitChar '\n' responseText
  let line0 := lines.headD ""
  let title :=
    if startsWithHash line0 then pyStrip (pyStripChars ['#', ' '] line0)
    else pyTitle topic
  let article_content :=
    if startsWithHash line0 then pyStrip (joinWith "\n" lines.tail)
    else responseText
  (prompt, { title := title, content := article_content })

/-- The configuration check performed by `_validate_config`, as a predicate:
all four values present and truthy (the site URL after `rstrip("/")`). -/
def validConfig (env : Env) : Bool :=
  match env.wordpressUrl with
  | none => false
  | some u =>
    pyTruthyStr (some (pyRstripSlash u)) && pyTruthyStr env.wordpressUsername
      && pyTruthyStr env.wordpressPassword && pyTruthyStr env.geminiApiKey

/-- A fully-populated environment, used to instantiate general theorems. -/
def sampleEnv : Env :=
  { wordpressUrl := some "https://example.com/"
    wordpressUsername := some "admin"
    wordpressPassword := some "pw"
    geminiApiKey := some "key" }

/-- An environment with the site URL unset and the other values present. -/
def envMissingUrl : Env :=
  { wordpressUrl := none
    wordpressUsername := some "admin"
    wordpressPassword := some "pw"
    geminiApiKey := some "key" }

/-- A successful authentication response carrying a token. -/
def sampleOutcome : HttpOutcome :=
  HttpOutcome.resp 200 (some [("token", "tok")])

/-- The client state `init sampleEnv sampleOutcome` constructs. -/
def sampleClient : Client :=
  { site_url := "https://example.com"
    api_url := "https://example.com/wp-json/wp/v2"
    jwt_url := "https://example.com/wp-json/jwt-auth/v1/token"
    username := some "admin"
    password := some "pw"
    gemini_api_key := some "key"
    token := some "tok"
    headers := [("Authorization", "Bearer tok"), ("Content-Type", "application/json")] }

/-! ## Theorems -/

/-- Every successful `authenticate` result carries the derived header set. -/
theorem authenticate_ok_headers {outcome : HttpOutcome} {s : Session}
    (h : authenticate outcome = Except.ok s) :
    s.headers = [("Authorization", "Bearer " ++ pyStrOfOptStr s.token),
                 ("Content-Type", "application/json")] := by
  cases outcome with
  | netError => simp [authenticate] at h
  | resp status body =>
    simp only [authenticate] at h
    split at h
    · exact absurd h (by simp)
    · cases body with
      | none => simp at h
      | some kvs =>
        rw [Except.ok.injEq] at h
        subst h
        rfl

/-- A client built by `init` carries the header set derived from its token. -/
theorem init_ok_headers {env : Env} {outcome : HttpOutcome} {c : Client}
    (h : (init env outcome).1 = Except.ok c) :
    c.headers = [("Authorization", "Bearer " ++ pyStrOfOptStr c.token),
                 ("Content-Type", "application/json")] := by
  cases henv : env.wordpressUrl with
  | none => simp [init, henv] at h
  | some u =>
    simp only [init, henv] at h
    split at h
    · simp at h
    · split at h
      · simp at h
      · split at h
        · simp at h
        · split at h
          · simp at h
          · cases hauth : authenticate outcome with
            | error e => rw [hauth] at h; simp at h
            | ok s =>
              rw [hauth] at h
              simp only [Except.ok.injEq] at h
              subst h
              exact authenticate_ok_headers hauth

/-- C1: the spec requires construction with any required configuration value
missing or empty to fail with a ConfigurationError and to perform no network
call.  The code slips for a missing site URL: `os.getenv` returns `None` and
`None.rstrip("/")` raises an `AttributeError` before `_validate_config` can
report the missing key.  In every invalid configuration no network request is
issued and construction fails. -/
theorem C1_construction_failure_modes (env : Env) (outcome : HttpOutcome) :
    init envMissingUrl outcome = (Except.error InitError.attributeError, 0) ∧
    (validConfig env = false →
      (init env outcome).2 = 0 ∧ ∀ c, (init env outcome).1 ≠ Except.ok c) := by
  constructor
  · rfl
  · intro h
    cases henv : env.wordpressUrl with
    | none => simp [init, henv]
    | some u =>
      simp only [validConfig, henv] at h
      simp only [init, henv]
      by_cases h1 : pyTruthyStr (some (pyRstripSlash u)) <;>
        by_cases h2 : pyTruthyStr env.wordpressUsername <;>
        by_cases h3 : pyTruthyStr env.wordpressPassword <;>
        by_cases h4 : pyTruthyStr env.geminiApiKey <;>
        simp [h1, h2, h3, h4] at h ⊢

/-- C1 witness: at the concrete failing input, construction fails without a
network call and yields no client. -/
theorem C1_construction_failure_modes_witness :
    (init envMissingUrl sampleOutcome).2 = 0 ∧
    (init envMissingUrl sampleOutcome).1 ≠ Except.ok sampleClient := by
  have h := C1_construction_failure_modes envMissingUrl sampleOutcome
  exact ⟨(h.2 rfl).1, (h.2 rfl).2 sampleClient⟩

/-- C2 counterexample: a well-formed 2xx response whose JSON body lacks the
`token` field does not fail with an AuthenticationError, contrary to the
claim — `response.json().get("token")` silently yields `None` and the client
proceeds with the literal Authorization value `Bearer None`. -/
theorem C2_missing_token_counterexample :
    authenticate (HttpOutcome.resp 200 (some [])) =
      Except.ok { token := none
                  headers := [("Authorization", "Bearer None"),
                              ("Content-Type", "application/json")] } := rfl

/-- C2 amended: on a network error, a 4xx/5xx response, or a body that fails
to decode as JSON, authentication fails with an AuthenticationError; on every
other response it succeeds, storing `body.get("token")` — possibly absent —
and a header set whose Authorization value is `Bearer ` followed by the
token's rendering, so every success is bearer-prefixed but a missing token
yields `Bearer None` rather than an error. -/
theorem C2_authentication_modes :
    (authenticate HttpOutcome.netError = Except.error "Autentikasi gagal") ∧
    (∀ status body, raiseForStatusFails status = true →
      authenticate (HttpOutcome.resp status body) = Except.error "Autentikasi gagal") ∧
    (∀ status, raiseForStatusFails status = false →
      authenticate (HttpOutcome.resp status none) = Except.error "Autentikasi gagal") ∧
    (∀ status kvs, raiseForStatusFails status = false →
      authenticate (HttpOutcome.resp status (some kvs)) =
        Except.ok { token := jget kvs "token"
                    headers := [("Authorization",
                                 "Bearer " ++ pyStrOfOptStr (jget kvs "token")),
                                ("Content-Type", "application/json")] }) ∧
    (∀ outcome s, authenticate outcome = Except.ok s →
      jget s.headers "Authorization" = some ("Bearer " ++ pyStrOfOptStr s.token)) := by
  refine ⟨rfl, ?_, ?_, ?_, ?_⟩
  · intro status body h
    simp [authenticate, h]
  · intro status h
    simp [authenticate, h]
  · intro status kvs h
    simp [authenticate, h]
  · intro outcome s h
    rw [authenticate_ok_headers h]
    rfl

/-- C2 witness: the amended behaviour at concrete inputs — a 404 fails, a
2xx with an undecodable body fails, and a 2xx carrying a token succeeds with
a bearer-prefixed Authorization header. -/
theorem C2_authentication_modes_witness :
    authenticate (HttpOutcome.resp 404 (some [("token", "tok")])) =
      Except.error "Autentikasi gagal" ∧
    authenticate (HttpOutcome.resp 200 none) = Except.error "Autentikasi gagal" ∧
    authenticate (HttpOutcome.resp 200 (some [("token", "tok")])) =
      Except.ok { token := some "tok"
                  headers := [("Authorization", "Bearer tok"),
                              ("Content-Type", "application/json")] } ∧
    jget [("Authorization", "Bearer tok"), ("Content-Type", "application/json")]
        "Authorization" = some ("Bearer " ++ pyStrOfOptStr (some "tok")) := by
  have h := C2_authentication_modes
  refine ⟨h.2.1 404 (some [("token", "tok")]) rfl, h.2.2.1 200 rfl, ?_, ?_⟩
  · exact h.2.2.2.1 200 [("token", "tok")] rfl
  · exact h.2.2.2.2 (HttpOutcome.resp 200 (some [("token", "tok")]))
      { token := some "tok"
        headers := [("Authorization", "Bearer tok"),
                    ("Content-Type", "application/json")] } rfl

/-- C3: `create_post` with only title and content (all optional arguments at
their defaults `None`, `None`, `"publish"`, `"post"`) sends a request body
holding exactly the four fields title, content, status and type; the
optional `categories` and `featured_media` keys are entirely absent. -/
theorem C3_create_post_default_body (c : Client) (title content : String) :
    (create_post c title content none none "publish" "post").1.jsonBody =
      some [("title", JValue.str title), ("content", JValue.str content),
            ("status", JValue.str "publish"), ("type", JValue.str "post")] ∧
    "categories" ∉
      (create_post_data title content none none "publish" "post").map Prod.fst ∧
    "featured_media" ∉
      (create_post_data title content none none "publish" "post").map Prod.fst := by
  refine ⟨rfl, ?_, ?_⟩ <;>
    simp [create_post_data, pyTruthyList, pyTruthyInt]

/-- C4 counterexample: `update_post` called with `featured_image_id=0` and no
other optional argument sends an empty request body — `0` is falsy in Python,
so the body does not contain exactly one `featured_media` field as the claim
requires for every supplied value. -/
theorem C4_zero_featured_id_counterexample :
    (update_post sampleClient 1 "post" none none none (some 0)).1.jsonBody =
      some [] := rfl

/-- C4 amended: `update_post` that supplies a nonzero `featured_image_id` and
no other optional argument sends a request body containing exactly one field,
`featured_media`; a supplied value of `0` is treated as absent and produces
an empty body. -/
theorem C4_update_post_featured_only (c : Client) (post_id : Int)
    (post_type : String) (fid : Int) (h : fid ≠ 0) :
    (update_post c post_id post_type none none none (some fid)).1.jsonBody =
      some [("featured_media", JValue.num fid)] := by
  simp [update_post, update_post_data, pyTruthyStr, pyTruthyList, pyTruthyInt, h]

/-- C4 witness: a concrete nonzero featured-media update. -/
theorem C4_update_post_featured_only_witness :
    (update_post sampleClient 9 "post" none none none (some 5)).1.jsonBody =
      some [("featured_media", JValue.num 5)] :=
  C4_update_post_featured_only sampleClient 9 "post" 5 (by decide)

/-- C5 counterexample: `delete_user` called with `reassign=0` appends no
query string — the URL equals the one built with `reassign` not supplied —
contradicting the claim that every supplied value is appended. -/
theorem C5_zero_reassign_counterexample :
    (delete_user sampleClient 7 (some 0)).1.url =
      "https://example.com/wp-json/wp/v2/users/7" ∧
    (delete_user sampleClient 7 (some 0)).1.url =
      (delete_user sampleClient 7 none).1.url := ⟨rfl, rfl⟩

/-- C5 amended: `delete_user` with a nonzero `reassign` value appends
`?reassign=<value>` to the request URL; with `reassign` not supplied (or
supplied as the falsy `0`) no query string is appended. -/
theorem C5_delete_user_reassign_url (c : Client) (user_id : Int) (r : Int)
    (h : r ≠ 0) :
    (delete_user c user_id (some r)).1.url =
      c.api_url ++ "/users/" ++ toString user_id ++ "?reassign=" ++ toString r ∧
    (delete_user c user_id none).1.url = c.api_url ++ "/users/" ++ toString user_id := by
  constructor
  · simp [delete_user, delete_user_url, pyTruthyInt, h]
  · rfl

/-- C5 witness: `reassign=5` appends `?reassign=5` for a concrete client. -/
theorem C5_delete_user_reassign_url_witness :
    (delete_user sampleClient 7 (some 5)).1.url =
      sampleClient.api_url ++ "/users/" ++ toString (7 : Int) ++ "?reassign="
        ++ toString (5 : Int) ∧
    (delete_user sampleClient 7 none).1.url =
      sampleClient.api_url ++ "/users/" ++ toString (7 : Int) :=
  C5_delete_user_reassign_url sampleClient 7 5 (by decide)

/-- C6: every `upload_media` request built from an authenticated client
carries exactly one header — the Authorization value taken from the session
header set — and in particular never the JSON Content-Type header stored in
the session; the content type is left to the multipart encoder. -/
theorem C6_upload_media_auth_header_only (env : Env) (outcome : HttpOutcome)
    (c : Client) (h : (init env outcome).1 = Except.ok c)
    (file_path alt_text description : String) :
    (upload_media c file_path alt_text description).map (fun p => p.1.headers) =
      some [("Authorization", "Bearer " ++ pyStrOfOptStr c.token)] ∧
    (upload_media c file_path alt_text description).map (fun p => p.2) = some c := by
  have hh := init_ok_headers h
  constructor <;> simp [upload_media, hh, jget]

/-- C6 witness: the upload request of the sample client carries only its
bearer Authorization header. -/
theorem C6_upload_media_auth_header_only_witness :
    (upload_media sampleClient "img/pic.jpg" "alt" "desc").map
        (fun p => p.1.headers) =
      some [("Authorization", "Bearer " ++ pyStrOfOptStr sampleClient.token)] ∧
    (upload_media sampleClient "img/pic.jpg" "alt" "desc").map (fun p => p.2) =
      some sampleClient :=
  C6_upload_media_auth_header_only sampleEnv sampleOutcome sampleClient (by rfl)
    "img/pic.jpg" "alt" "desc"

/-- C7: `generate_article_with_gemini` maps `length` to a word count through
the fixed table short=200, medium=500, long=1000 with 500 for any other
value, and returns title/content split on a leading heading marker: a first
response line starting with `#` becomes the title (stripped of `#` and
blanks) with the remaining lines (whitespace-trimmed) as content, otherwise
the title is the titleized topic and the content the whole response. -/
theorem C7_generate_article_mapping (topic len responseText : String) :
    (word_count_of "short" = 200 ∧ word_count_of "medium" = 500 ∧
      word_count_of "long" = 1000) ∧
    (len ≠ "short" → len ≠ "medium" → len ≠ "long" → word_count_of len = 500) ∧
    ((generate_article_with_gemini topic len responseText).2 =
      if startsWithHash ((splitChar '\n' responseText).headD "") then
        { title := pyStrip (pyStripChars ['#', ' ']
            ((splitChar '\n' responseText).headD ""))
          content := pyStrip (joinWith "\n" (splitChar '\n' responseText).tail) }
      else { title := pyTitle topic, content := responseText }) := by
  refine ⟨⟨by decide, by decide, by decide⟩, ?_, ?_⟩
  · intro h1 h2 h3
    have e1 : (len == "short") = false := beq_eq_false_iff_ne.mpr h1
    have e2 : (len == "medium") = false := beq_eq_false_iff_ne.mpr h2
    have e3 : (len == "long") = false := beq_eq_false_iff_ne.mpr h3
    simp [word_count_of, List.lookup, e1, e2, e3]
  · by_cases hs : startsWithHash ((splitChar '\n' responseText).headD "") <;>
      simp only [List.headD] at hs <;>
      simp [generate_article_with_gemini, List.headD, hs]

/-- C7 witness: an unrecognized length falls back to 500 words, and a
response with a markdown heading is split into title and content. -/
theorem C7_generate_article_mapping_witness :
    word_count_of "bogus" = 500 ∧
    (generate_article_with_gemini "manfaat ai" "bogus" "# Judul\nIsi").2 =
      { title := "Judul", content := "Isi" } := by
  constructor
  · exact (C7_generate_article_mapping "manfaat ai" "bogus" "# Judul\nIsi").2.1
      (by decide) (by decide) (by decide)
  · decide

/-- Writing a file makes its content readable at its path. -/
theorem jget_writeFile_self (files : List (String × String)) (k v : String) :
    jget (writeFile files k v) k = some v := by
  induction files with
  | nil => simp [writeFile, jget]
  | cons kv rest ih =>
    by_cases h : kv.1 = k
    · simp [writeFile, h, jget]
    · simp only [writeFile, beq_eq_false_iff_ne.mpr h, if_neg]
      simpa [jget, List.find?, beq_eq_false_iff_ne.mpr h] using ih

/-- Writing a file leaves every other path unchanged. -/
theorem jget_writeFile_other (files : List (String × String)) (k v q : String)
    (h : q ≠ k) :
    jget (writeFile files k v) q = jget files q := by
  have hkq : (k == q) = false := beq_eq_false_iff_ne.mpr (Ne.symm h)
  induction files with
  | nil => simp [writeFile, jget, List.find?, hkq]
  | cons kv rest ih =>
    by_cases hk : kv.1 = k
    · simp [writeFile, hk, jget, List.find?, hkq]
    · by_cases hq : kv.1 = q
      · simp [writeFile, beq_eq_false_iff_ne.mpr hk, jget, List.find?, hq, h]
      · simp only [writeFile, beq_eq_false_iff_ne.mpr hk, if_neg]
        simpa [jget, List.find?, beq_eq_false_iff_ne.mpr hq] using ih

/-- `insertDir` keeps every directory that was already present. -/
theorem mem_insertDir_of_mem {x : String} (ds : List String) (d : String)
    (h : x ∈ ds) : x ∈ insertDir ds d := by
  unfold insertDir
  split
  · exact h
  · exact List.mem_append_left _ h

/-- `insertDir` establishes the inserted directory. -/
theorem mem_insertDir_self (ds : List String) (d : String) : d ∈ insertDir ds d := by
  unfold insertDir
  split
  · assumption
  · simp

/-- Folding `insertDir` keeps every directory that was already present. -/
theorem mem_foldl_insertDir_of_mem {x : String} :
    ∀ (xs ds : List String), x ∈ ds → x ∈ xs.foldl insertDir ds := by
  intro xs
  induction xs with
  | nil => intro ds h; exact h
  | cons d xs ih =>
    intro ds h
    exact ih (insertDir ds d) (mem_insertDir_of_mem ds d h)

/-- Folding `insertDir` establishes every directory of the folded list. -/
theorem mem_foldl_insertDir_of_mem_list {x : String} :
    ∀ (xs ds : List String), x ∈ xs → x ∈ xs.foldl insertDir ds := by
  intro xs
  induction xs with
  | nil => intro ds h; cases h
  | cons d xs ih =>
    intro ds h
    rcases List.mem_cons.mp h with h | h
    · subst h
      exact mem_foldl_insertDir_of_mem xs (insertDir ds x) (mem_insertDir_self ds x)
    · exact ih (insertDir ds d) h

/-- C8: `backup_site` creates the target directory (with its parents) if
absent, writes the fixed placeholder text into exactly one new file named
`backup_<YYYYMMDD_HHMMSS>.zip` inside it — every other path keeps its prior
content — and returns that file's path. -/
theorem C8_backup_site_behavior (fs : FS) (now : Timestamp) (backup_path : String) :
    (backup_site fs now backup_path).2 =
      backup_path ++ "/backup_" ++ timestampText now ++ ".zip" ∧
    jget (backup_site fs now backup_path).1.files (backup_site fs now backup_path).2 =
      some backupPlaceholderText ∧
    (∀ q, q ≠ (backup_site fs now backup_path).2 →
      jget (backup_site fs now backup_path).1.files q = jget fs.files q) ∧
    backup_path ∈ (backup_site fs now backup_path).1.dirs ∧
    (∀ d, d ∈ pathAncestors backup_path → d ∈ (backup_site fs now backup_path).1.dirs) ∧
    (∀ d, d ∈ fs.dirs → d ∈ (backup_site fs now backup_path).1.dirs) := by
  refine ⟨rfl, ?_, ?_, ?_, ?_, ?_⟩
  · exact jget_writeFile_self fs.files _ _
  · intro q hq
    exact jget_writeFile_other fs.files _ _ q hq
  · exact mem_insertDir_self _ backup_path
  · intro d hd
    exact mem_insertDir_of_mem _ backup_path
      (mem_foldl_insertDir_of_mem_list _ fs.dirs hd)
  · intro d hd
    exact mem_insertDir_of_mem _ backup_path
      (mem_foldl_insertDir_of_mem _ fs.dirs hd)

/-- C8 witness: a concrete backup into `/tmp/b` at a fixed instant. -/
theorem C8_backup_site_behavior_witness :
    (backup_site { dirs := [], files := [("/etc/hosts", "h")] }
        { year := 2026, month := 10, day := 12, hour := 3, minute := 4, second := 5 }
        "/tmp/b").2 = "/tmp/b/backup_20261012_030405.zip" ∧
    jget (backup_site { dirs := [], files := [("/etc/hosts", "h")] }
        { year := 2026, month := 10, day := 12, hour := 3, minute := 4, second := 5 }
        "/tmp/b").1.files "/tmp/b/backup_20261012_030405.zip" =
      some backupPlaceholderText ∧
    jget (backup_site { dirs := [], files := [("/etc/hosts", "h")] }
        { year := 2026, month := 10, day := 12, hour := 3, minute := 4, second := 5 }
        "/tmp/b").1.files "/etc/hosts" = some "h" ∧
    "/tmp/b" ∈ (backup_site { dirs := [], files := [("/etc/hosts", "h")] }
        { year := 2026, month := 10, day := 12, hour := 3, minute := 4, second := 5 }
        "/tmp/b").1.dirs := by
  have h := C8_backup_site_behavior { dirs := [], files := [("/etc/hosts", "h")] }
    { year := 2026, month := 10, day := 12, hour := 3, minute := 4, second := 5 }
    "/tmp/b"
  refine ⟨by decide, ?_, ?_, h.2.2.2.1⟩
  · have := h.2.1
    rwa [h.1] at this
  · have := h.2.2.1 "/etc/hosts" (by decide)
    simpa [jget] using this

/-- C9: no operation mutates the client state — every call returns it
unchanged — and every JSON-based operation sends exactly the session header
set computed at construction (`upload_media`, the lone multipart call, also
leaves the state untouched). -/
theorem C9_session_header_invariant (c : Client) (slug : String) (menu_id : Int)
    (items : List (List (String × String))) (title content status post_type : String)
    (cats : Option (List Int)) (fid : Option Int) (post_id : Int)
    (utitle ucontent : Option String) (uname uemail upw urole : String)
    (user_id : Int) (memail mrole : Option String) (reassign : Option Int)
    (file_path alt_text description : String) :
    ((list_themes c).2 = c ∧ (list_themes c).1.headers = c.headers) ∧
    ((activate_theme c slug).2 = c ∧ (activate_theme c slug).1.headers = c.headers) ∧
    ((update_menu c menu_id items).2 = c ∧
      (update_menu c menu_id items).1.headers = c.headers) ∧
    ((create_post c title content cats fid status post_type).2 = c ∧
      (create_post c title content cats fid status post_type).1.headers = c.headers) ∧
    ((update_post c post_id post_type utitle ucontent cats fid).2 = c ∧
      (update_post c post_id post_type utitle ucontent cats fid).1.headers = c.headers) ∧
    ((delete_post c post_id post_type).2 = c ∧
      (delete_post c post_id post_type).1.headers = c.headers) ∧
    ((create_user c uname uemail upw urole).2 = c ∧
      (create_user c uname uemail upw urole).1.headers = c.headers) ∧
    ((update_user c user_id memail mrole).2 = c ∧
      (update_user c user_id memail mrole).1.headers = c.headers) ∧
    ((delete_user c user_id reassign).2 = c ∧
      (delete_user c user_id reassign).1.headers = c.headers) ∧
    ((upload_media c file_path alt_text description).map (fun p => p.2) =
      (upload_media c file_path alt_text description).map (fun _ => c)) := by
  refine ⟨⟨rfl, rfl⟩, ⟨rfl, rfl⟩, ⟨rfl, rfl⟩, ⟨rfl, rfl⟩, ⟨rfl, rfl⟩, ⟨rfl, rfl⟩,
    ⟨rfl, rfl⟩, ⟨rfl, rfl⟩, ⟨rfl, rfl⟩, ?_⟩
  cases h : jget c.headers "Authorization" <;> simp [upload_media, h]

/-- A truthy optional string holds a non-empty value. -/
theorem pyTruthyStr_getD_ne {t : Option String} (h : pyTruthyStr t = true) :
    t.getD "" ≠ "" := by
  cases t with
  | none => simp [pyTruthyStr] at h
  | some s => simpa [pyTruthyStr] using h

/-- C10: optional arguments are treated as absent whenever they are falsy:
`update_post` omits `title`/`content`/`categories`/`featured_media` for
`""`/`""`/`[]`/`0`, so a post's title can never be set to the empty string
through this client; `create_post` likewise omits `categories=[]` and
`featured_image_id=0`; and `delete_user` with `reassign=0` appends no query
string. -/
theorem C10_falsy_optionals_omitted (utitle ucontent : Option String)
    (cats : Option (List Int)) (fid : Option Int)
    (title content status post_type api_url : String) (user_id : Int) :
    "title" ∉ (update_post_data (some "") ucontent cats fid).map Prod.fst ∧
    "content" ∉ (update_post_data utitle (some "") cats fid).map Prod.fst ∧
    "categories" ∉ (update_post_data utitle ucontent (some []) fid).map Prod.fst ∧
    "featured_media" ∉ (update_post_data utitle ucontent cats (some 0)).map Prod.fst ∧
    "categories" ∉
      (create_post_data title content (some []) fid status post_type).map Prod.fst ∧
    "featured_media" ∉
      (create_post_data title content cats (some 0) status post_type).map Prod.fst ∧
    delete_user_url api_url user_id (some 0) =
      api_url ++ "/users/" ++ toString user_id ∧
    ("title", JValue.str "") ∉ update_post_data utitle ucontent cats fid := by
  refine ⟨?_, ?_, ?_, ?_, ?_, ?_, ?_, ?_⟩
  · by_cases h2 : pyTruthyStr ucontent <;> by_cases h3 : pyTruthyList cats <;>
      by_cases h4 : pyTruthyInt fid <;>
      simp [update_post_data, pyTruthyStr, h2, h3, h4]
  · by_cases h1 : pyTruthyStr utitle <;> by_cases h3 : pyTruthyList cats <;>
      by_cases h4 : pyTruthyInt fid <;>
      simp [update_post_data, pyTruthyStr, h1, h3, h4]
  · by_cases h1 : pyTruthyStr utitle <;> by_cases h2 : pyTruthyStr ucontent <;>
      by_cases h4 : pyTruthyInt fid <;>
      simp [update_post_data, pyTruthyList, h1, h2, h4]
  · by_cases h1 : pyTruthyStr utitle <;> by_cases h2 : pyTruthyStr ucontent <;>
      by_cases h3 : pyTruthyList cats <;>
      simp [update_post_data, pyTruthyInt, h1, h2, h3]
  · by_cases h4 : pyTruthyInt fid <;>
      simp [create_post_data, pyTruthyList, h4]
  · by_cases h3 : pyTruthyList cats <;>
      simp [create_post_data, pyTruthyInt, h3]
  · simp [delete_user_url, pyTruthyInt]
  · intro hmem
    simp only [update_post_data, List.mem_append] at hmem
    rcases hmem with (((htl | hct) | hca) | hfm)
    · by_cases h1 : pyTruthyStr utitle
      · rw [if_pos h1] at htl
        simp only [List.mem_singleton, Prod.mk.injEq, JValue.str.injEq] at htl
        exact pyTruthyStr_getD_ne h1 htl.2.symm
      · rw [if_neg h1] at htl
        simp at htl
    · split at hct <;> simp at hct
    · split at hca <;> simp at hca
    · split at hfm <;> simp at hfm

end WordPressManager
